import Mathlib

/-!
Verification of the `target-clickhouse` connector core.

This file gives a shallow embedding of the two source files
`target_clickhouse/engine_class.py` and `target_clickhouse/connectors.py`
and proves the specified properties about them.

Modelling conventions:
* Python `dict.get` lookups become `Option`-valued lookups.
* Raised exceptions become `Except.error` values of the `CreateError` type,
  carrying the exception class and its message string.
* External collaborators (the singer-sdk generic JSON-Schema to SQL type
  mapper `th.to_sql_type`, the table-name parser
  `SQLConnector.parse_full_table_name`, and the clickhouse-sqlalchemy engine
  constructors) are abstracted: the first two are function parameters, the
  last is modelled from the spec where a claim needs its behaviour.
-/

namespace TargetClickhouse

/-- The thirteen engine classes that appear as values of `ENGINE_MAPPING` in
`engine_class.py` (constructors of the external `clickhouse_sqlalchemy.engines`
module, represented here as an enumeration). -/
inductive EngineClass where
  | MergeTree
  | ReplacingMergeTree
  | SummingMergeTree
  | CollapsingMergeTree
  | VersionedCollapsingMergeTree
  | AggregatingMergeTree
  | GraphiteMergeTree
  | ReplicatedMergeTree
  | ReplicatedSummingMergeTree
  | ReplicatedCollapsingMergeTree
  | ReplicatedReplacingMergeTree
  | ReplicatedAggregatingMergeTree
  | ReplicatedVersionedCollapsingMergeTree
deriving DecidableEq

/-- Embedding of `ENGINE_MAPPING` from `engine_class.py`: the dict literal,
as an association list in the source's key order. -/
def ENGINE_MAPPING : List (String × EngineClass) :=
  [("MergeTree", EngineClass.MergeTree),
   ("ReplacingMergeTree", EngineClass.ReplacingMergeTree),
   ("SummingMergeTree", EngineClass.SummingMergeTree),
   ("CollapsingMergeTree", EngineClass.CollapsingMergeTree),
   ("VersionedCollapsingMergeTree", EngineClass.VersionedCollapsingMergeTree),
   ("AggregatingMergeTree", EngineClass.AggregatingMergeTree),
   ("GraphiteMergeTree", EngineClass.GraphiteMergeTree),
   ("ReplicatedMergeTree", EngineClass.ReplicatedMergeTree),
   ("ReplicatedSummingMergeTree", EngineClass.ReplicatedSummingMergeTree),
   ("ReplicatedCollapsingMergeTree", EngineClass.ReplicatedCollapsingMergeTree),
   ("ReplicatedReplacingMergeTree", EngineClass.ReplicatedReplacingMergeTree),
   ("ReplicatedAggregatingMergeTree", EngineClass.ReplicatedAggregatingMergeTree),
   ("ReplicatedVersionedCollapsingMergeTree", EngineClass.ReplicatedVersionedCollapsingMergeTree)]

/-- Embedding of `get_engine_class` from `engine_class.py`:
`ENGINE_MAPPING.get(engine_type)`, i.e. an association-list lookup returning
`none` for keys not in the mapping. -/
def get_engine_class (engine_type : String) : Option EngineClass :=
  ENGINE_MAPPING.lookup engine_type

/-- SQLAlchemy type instances as they occur in this connector.  A value
carries its runtime class (the constructor) together with the data relevant
to the claims.  `DECIMALSub` stands for an instance of a proper subclass of
`sqlalchemy.types.DECIMAL`: in Python it is a distinct runtime class, so the
source's exact-class test `type(sql_type) == sqlalchemy.types.DECIMAL` is
false on it. -/
inductive SqlType where
  | DECIMAL (precision : Option Nat)
  | DECIMALSub (precision : Option Nat)
  | FLOAT
  | INTEGER
  | BIGINT
  | VARCHAR (length : Option Nat)
  | BOOLEAN
  | DATETIME
deriving DecidableEq

/-- Embedding of the Python test `type(sql_type) == sqlalchemy.types.DECIMAL`:
true exactly when the runtime class of the instance is `DECIMAL` itself
(regardless of its precision field), false for every other class, including
proper subclasses of `DECIMAL`. -/
def type_is_exactly_DECIMAL : SqlType → Bool
  | SqlType.DECIMAL _ => true
  | _ => false

/-- A JSON-Schema type descriptor (the `jsonschema_type` dict).  Its contents
are only ever inspected by the external generic mapper, which is abstracted
as a function parameter, so a single tag field suffices. -/
structure JsonSchema where
  jtype : String
deriving DecidableEq

/-- Embedding of `ClickhouseConnector.to_sql_type` from `connectors.py`:
first apply the generic singer-sdk mapper (`th.to_sql_type`, passed here as
the function parameter `th_to_sql_type`), then, if the result's runtime class
is exactly `DECIMAL`, replace it with `FLOAT()`. -/
def to_sql_type (th_to_sql_type : JsonSchema → SqlType)
    (jsonschema_type : JsonSchema) : SqlType :=
  let sql_type := th_to_sql_type jsonschema_type
  if type_is_exactly_DECIMAL sql_type then SqlType.FLOAT else sql_type

/-- Capability flag declared at class level in `connectors.py` line 26:
whether ADD COLUMN is supported. -/
def allow_column_add : Bool := true

/-- Capability flag declared at class level in `connectors.py` line 27:
whether RENAME COLUMN is supported. -/
def allow_column_rename : Bool := true

/-- Capability flag declared at class level in `connectors.py` line 28:
whether altering column types is supported. -/
def allow_column_alter : Bool := true

/-- Capability flag declared at class level in `connectors.py` line 29:
whether MERGE UPSERT is supported. -/
def allow_merge_upsert : Bool := false

/-- Capability flag declared at class level in `connectors.py` line 30:
whether temp tables are supported. -/
def allow_temp_tables : Bool := true

/-- The part of the connector configuration read by `create_empty_table`:
`self.config.get("table_name")`, `none` when the key is absent. -/
structure Config where
  table_name : Option String
deriving DecidableEq

/-- The JSON schema argument of `create_empty_table`.  `properties` is
`none` when the dict has no `"properties"` key, in which case subscripting
raises `KeyError`; a Python dict preserves insertion order, so the
properties are a list of name/descriptor pairs. -/
structure Schema where
  properties : Option (List (String × JsonSchema))
deriving DecidableEq

/-- A rendering of a `JsonSchema` descriptor, standing in for Python's
`repr` when a schema is interpolated into an error message. -/
def JsonSchema.render (j : JsonSchema) : String :=
  "\x7b\x27type\x27: \x27" ++ j.jtype ++ "\x27\x7d"

/-- A rendering of a `Schema`, standing in for Python's `repr` of the schema
dict when it is interpolated into the malformed-schema error message. -/
def Schema.render (s : Schema) : String :=
  match s.properties with
  | none => "\x7b\x7d"
  | some ps =>
      "\x7b\x27properties\x27: \x7b" ++
        String.intercalate (", ") (ps.map (fun p => "\x27" ++ p.1 ++ "\x27: " ++ p.2.render)) ++
        "\x7d\x7d"

/-- One element of the `columns` list built by `create_empty_table`: a
`sqlalchemy.Column(property_name, sql_type, primary_key=is_primary_key)`. -/
structure ColumnDef where
  name : String
  sql_type : SqlType
  primary_key : Bool
deriving DecidableEq

/-- The `engine_args` keyword dict passed to the engine constructor.
`primary_key` is always present; `table_path` and `replica_name` are `some`
exactly when the corresponding key was added to the dict (the source adds a
key only when the argument is not `None`, so an absent key and a `None`
argument coincide and `none` here means the parameter was omitted). -/
structure EngineArgs where
  primary_key : List String
  table_path : Option String
  replica_name : Option String
deriving DecidableEq

/-- The `table_args` keyword dict passed to `Table`: the
`clickhouse_cluster` key is present exactly when `cluster_name` is not
`None`. -/
structure TableArgs where
  clickhouse_cluster : Option String
deriving DecidableEq

/-- The table handed to `Table(...)`/`meta.create_all` on the success path of
`create_empty_table`: effective table name, the ordered column list, the
resolved engine class with its bound arguments, and the table-level
arguments. -/
structure CreateResult where
  table_name : String
  columns : List ColumnDef
  engine_class : EngineClass
  engine_args : EngineArgs
  table_args : TableArgs
deriving DecidableEq

/-- The exceptions `create_empty_table` can raise, with their messages. -/
inductive CreateError where
  | notImplementedError (msg : String)
  | runtimeError (msg : String)
  | valueError (msg : String)
deriving DecidableEq

/-- Embedding of `ClickhouseConnector.create_empty_table` from
`connectors.py` lines 67-143.  The external collaborators are parameters:
`parse_table_name` is the table-name component of
`self.parse_full_table_name`, and `th_to_sql_type` is the generic singer-sdk
type mapper used by `to_sql_type`.  An `Except.ok` result is the table that
reaches `Table(...)` and `meta.create_all`; an `Except.error` is the raised
exception, before any DDL is built or executed. -/
def create_empty_table
    (config : Config)
    (parse_table_name : String → String)
    (th_to_sql_type : JsonSchema → SqlType)
    (full_table_name : String)
    (schema : Schema)
    (primary_keys : Option (List String))
    (partition_keys : Option (List String))
    (as_temp_table : Bool)
    (engine_type : String)
    (table_path : Option String)
    (replica_name : Option String)
    (cluster_name : Option String) :
    Except CreateError CreateResult :=
  if as_temp_table then
    Except.error (CreateError.notImplementedError ("Temporary tables are not supported."))
  else
    -- `_ = partition_keys`: not supported in the generic implementation.
    let _ := partition_keys
    let parsed_name := parse_table_name full_table_name
    -- `if self.config.get("table_name"):` — Python truthiness: the override
    -- applies when the key is present with a non-empty value.
    let table_name :=
      match config.table_name with
      | some s => if s = "" then parsed_name else s
      | none => parsed_name
    -- `primary_keys = primary_keys or []`
    let pks := primary_keys.getD []
    match schema.properties with
    | none =>
        Except.error (CreateError.runtimeError
          ("Schema for \x27" ++ full_table_name ++ "\x27 does not define properties: " ++
            Schema.render schema))
    | some properties =>
        let columns : List ColumnDef :=
          properties.map (fun p =>
            ColumnDef.mk p.1 (to_sql_type th_to_sql_type p.2) (decide (p.1 ∈ pks)))
        match get_engine_class engine_type with
        | none =>
            Except.error (CreateError.valueError ("Unsupported engine type: " ++ engine_type))
        | some engine_class =>
            let engine_args : EngineArgs := EngineArgs.mk pks table_path replica_name
            let table_args : TableArgs := TableArgs.mk cluster_name
            Except.ok (CreateResult.mk table_name columns engine_class engine_args table_args)

/-- The tables on which `meta.create_all(self._engine)` is invoked for a
given call of `create_empty_table`: exactly the constructed table on the
success path, nothing when an exception was raised first (the
SQL-execution collaborator is then never reached). -/
def executed_ddl (r : Except CreateError CreateResult) : List CreateResult :=
  match r with
  | Except.ok t => [t]
  | Except.error _ => []

/-- Embedding of the static method `ClickhouseConnector.get_column_alter_ddl`
from `connectors.py` lines 155-180: the `sqlalchemy.DDL` template
`ALTER TABLE %(table_name)s MODIFY COLUMN %(column_name)s %(column_type)s`
with the three parameters substituted, and nothing else done to them.
`column_type` is the string form of the new type. -/
def get_column_alter_ddl (table_name : String) (column_name : String)
    (column_type : String) : String :=
  "ALTER TABLE " ++ table_name ++ " MODIFY COLUMN " ++ column_name ++ " " ++ column_type

/-- Whether an engine class is one of the `Replicated`-prefixed variants
(those whose clickhouse-sqlalchemy constructor accepts the coordination
path and replica name). -/
def EngineClass.isReplicated : EngineClass → Bool
  | EngineClass.ReplicatedMergeTree => true
  | EngineClass.ReplicatedSummingMergeTree => true
  | EngineClass.ReplicatedCollapsingMergeTree => true
  | EngineClass.ReplicatedReplacingMergeTree => true
  | EngineClass.ReplicatedAggregatingMergeTree => true
  | EngineClass.ReplicatedVersionedCollapsingMergeTree => true
  | _ => false

/-- The parameters that actually appear in the emitted `ENGINE = ...` clause
for a given engine class and bound arguments. -/
structure EngineClause where
  ordering_keys : List String
  coordination_path : Option String
  replica : Option String
deriving DecidableEq

/-- Modelled from the spec: the engine constructors live in the external
`clickhouse_sqlalchemy` library, and per the spec a constructor silently
ignores parameters its family does not accept — non-replicated families
accept only the ordering key, replicated families additionally the
coordination path and replica name.  This function gives the parameters the
constructed engine clause contains. -/
def engine_clause (ec : EngineClass) (args : EngineArgs) : EngineClause :=
  if ec.isReplicated then
    EngineClause.mk args.primary_key args.table_path args.replica_name
  else
    EngineClause.mk args.primary_key none none

/-- Modelled from the spec: the generic singer-sdk JSON-Schema to SQL type
mapper collaborator, instantiated concretely for witnesses: integer maps to
INTEGER, number to an unconstrained-precision DECIMAL, anything else to
VARCHAR. -/
def th_to_sql_type_model (j : JsonSchema) : SqlType :=
  if j.jtype = "integer" then SqlType.INTEGER
  else if j.jtype = "number" then SqlType.DECIMAL none
  else SqlType.VARCHAR none

/-- An association-list lookup succeeds exactly when the key occurs among
the keys of the list. -/
theorem lookup_isSome_iff {β : Type} (l : List (String × β)) (s : String) :
    (List.lookup s l).isSome ↔ s ∈ l.map Prod.fst := by
  induction l with
  | nil => simp [List.lookup]
  | cons hd tl ih =>
    obtain ⟨k, v⟩ := hd
    by_cases h : s = k
    · subst h
      simp [List.lookup]
    · have hb : (s == k) = false := by simp [h]
      simp only [List.lookup, hb, List.map_cons, List.mem_cons]
      rw [ih]
      simp [h]

/-- Inversion principle for the success path of `create_empty_table`: an
`ok` result forces `as_temp_table = false`, a present properties section and
a resolvable engine name, and determines every field of the produced table. -/
theorem create_ok_inversion
    (config : Config) (parse : String → String) (th : JsonSchema → SqlType)
    (ftn : String) (schema : Schema) (pks parts : Option (List String))
    (temp : Bool) (et : String) (tp rn cn : Option String) (t : CreateResult)
    (hok : create_empty_table config parse th ftn schema pks parts temp et tp rn cn =
      Except.ok t) :
    temp = false ∧
    ∃ ps ec, schema.properties = some ps ∧ get_engine_class et = some ec ∧
      t = CreateResult.mk
            (match config.table_name with
              | some s => if s = "" then parse ftn else s
              | none => parse ftn)
            (ps.map (fun p =>
              ColumnDef.mk p.1 (to_sql_type th p.2) (decide (p.1 ∈ pks.getD []))))
            ec (EngineArgs.mk (pks.getD []) tp rn) (TableArgs.mk cn) := by
  unfold create_empty_table at hok
  cases temp with
  | true => exact Except.noConfusion hok
  | false =>
    cases hprops : schema.properties with
    | none =>
      rw [hprops] at hok
      exact Except.noConfusion hok
    | some ps =>
      rw [hprops] at hok
      cases heng : get_engine_class et with
      | none =>
        rw [heng] at hok
        exact Except.noConfusion hok
      | some ec =>
        rw [heng] at hok
        exact ⟨rfl, ps, ec, rfl, rfl, (Except.ok.inj hok).symm⟩

/-- Claim C1 (amended): the registry resolves exactly the thirteen names of
`ENGINE_MAPPING` — the seven base MergeTree-family engines and the
Replicated-prefixed counterparts of all of them except `GraphiteMergeTree` —
and for any other name `create_empty_table` raises the unknown-engine
`ValueError` and never reaches DDL construction or execution. -/
theorem engine_registry_resolution :
    (∀ s : String, (get_engine_class s).isSome ↔
      s ∈ ["MergeTree", "ReplacingMergeTree", "SummingMergeTree", "CollapsingMergeTree",
           "VersionedCollapsingMergeTree", "AggregatingMergeTree", "GraphiteMergeTree",
           "ReplicatedMergeTree", "ReplicatedSummingMergeTree",
           "ReplicatedCollapsingMergeTree", "ReplicatedReplacingMergeTree",
           "ReplicatedAggregatingMergeTree", "ReplicatedVersionedCollapsingMergeTree"]) ∧
    (∀ (config : Config) (parse : String → String) (th : JsonSchema → SqlType)
        (ftn : String) (schema : Schema) (pks parts : Option (List String))
        (et : String) (tp rn cn : Option String) (ps : List (String × JsonSchema)),
      schema.properties = some ps →
      get_engine_class et = none →
      create_empty_table config parse th ftn schema pks parts false et tp rn cn =
        Except.error (CreateError.valueError ("Unsupported engine type: " ++ et)) ∧
      executed_ddl
        (create_empty_table config parse th ftn schema pks parts false et tp rn cn) = []) := by
  constructor
  · intro s
    unfold get_engine_class
    rw [lookup_isSome_iff]
    simp [ENGINE_MAPPING]
  · intro config parse th ftn schema pks parts et tp rn cn ps hps heng
    have hcreate : create_empty_table config parse th ftn schema pks parts false et tp rn cn =
        Except.error (CreateError.valueError ("Unsupported engine type: " ++ et)) := by
      unfold create_empty_table
      rw [hps, heng]
      rfl
    exact ⟨hcreate, by rw [hcreate]; rfl⟩

/-- Claim C1 counterexample: the claim counts `ReplicatedGraphiteMergeTree`
(the Replicated-prefixed counterpart of `GraphiteMergeTree`) among the
supported set, but the registry does not contain it: resolution returns the
distinguished unsupported result. -/
theorem replicated_graphite_not_in_registry :
    get_engine_class ("ReplicatedGraphiteMergeTree") = none := by
  rfl

/-- Claim C1 witness: a concrete unknown engine name fails with the
unknown-engine error and executes nothing. -/
theorem engine_registry_resolution_witness :
    (Schema.mk (some [])).properties = some [] ∧
    get_engine_class ("NotAnEngine") = none ∧
    (create_empty_table (Config.mk none) (fun s => s) th_to_sql_type_model ("s")
        (Schema.mk (some [])) none none false ("NotAnEngine") none none none =
      Except.error (CreateError.valueError ("Unsupported engine type: " ++ "NotAnEngine")) ∧
    executed_ddl
      (create_empty_table (Config.mk none) (fun s => s) th_to_sql_type_model ("s")
        (Schema.mk (some [])) none none false ("NotAnEngine") none none none) = []) :=
  ⟨rfl, rfl,
    engine_registry_resolution.2 (Config.mk none) (fun s => s) th_to_sql_type_model ("s")
      (Schema.mk (some [])) none none ("NotAnEngine") none none none [] rfl rfl⟩

/-- Claim C2: when the generic mapping of a descriptor is an
unconstrained-precision exact decimal, `to_sql_type` returns the
floating-point type; and the substitution is decided by exact runtime-class
equality with `DECIMAL`, so an instance of a proper subclass of `DECIMAL` is
returned unchanged, never substituted. -/
theorem decimal_downgrade_exact (th : JsonSchema → SqlType) (js : JsonSchema) :
    (th js = SqlType.DECIMAL none → to_sql_type th js = SqlType.FLOAT) ∧
    (∀ p, th js = SqlType.DECIMALSub p → to_sql_type th js = SqlType.DECIMALSub p) := by
  constructor
  · intro h
    simp [to_sql_type, h, type_is_exactly_DECIMAL]
  · intro p h
    simp [to_sql_type, h, type_is_exactly_DECIMAL]

/-- Claim C2 witness: a concrete mapper sending everything to an
unconstrained DECIMAL is downgraded to FLOAT, and one sending everything to
a DECIMAL subclass instance is left untouched. -/
theorem decimal_downgrade_exact_witness :
    ((fun _ : JsonSchema => SqlType.DECIMAL none) (JsonSchema.mk ("number")) =
        SqlType.DECIMAL none ∧
      to_sql_type (fun _ : JsonSchema => SqlType.DECIMAL none) (JsonSchema.mk ("number")) =
        SqlType.FLOAT) ∧
    ((fun _ : JsonSchema => SqlType.DECIMALSub none) (JsonSchema.mk ("number")) =
        SqlType.DECIMALSub none ∧
      to_sql_type (fun _ : JsonSchema => SqlType.DECIMALSub none) (JsonSchema.mk ("number")) =
        SqlType.DECIMALSub none) :=
  ⟨⟨rfl, (decimal_downgrade_exact (fun _ => SqlType.DECIMAL none) (JsonSchema.mk ("number"))).1 rfl⟩,
   ⟨rfl, (decimal_downgrade_exact (fun _ => SqlType.DECIMALSub none)
      (JsonSchema.mk ("number"))).2 none rfl⟩⟩

/-- Claim C8: `get_column_alter_ddl` is a pure function of the three inputs
returning exactly the `ALTER TABLE ... MODIFY COLUMN ...` statement obtained
by substituting them, with no further escaping or validation; in particular
the inputs `t`, `c`, `Float64` yield exactly
`ALTER TABLE t MODIFY COLUMN c Float64`. -/
theorem alter_ddl_format :
    (∀ t c ty : String, get_column_alter_ddl t c ty =
      "ALTER TABLE " ++ t ++ " MODIFY COLUMN " ++ c ++ " " ++ ty) ∧
    get_column_alter_ddl ("t") ("c") ("Float64") =
      "ALTER TABLE t MODIFY COLUMN c Float64" :=
  ⟨fun _ _ _ => rfl, rfl⟩

/-- Claim C9: two calls of `create_empty_table` differing only in the
`partition_keys` argument are indistinguishable — the very same result
(hence the same DDL, and the same absence of any error) is produced. -/
theorem partition_keys_dropped
    (config : Config) (parse : String → String) (th : JsonSchema → SqlType)
    (ftn : String) (schema : Schema) (pks parts₁ parts₂ : Option (List String))
    (temp : Bool) (et : String) (tp rn cn : Option String) :
    create_empty_table config parse th ftn schema pks parts₁ temp et tp rn cn =
    create_empty_table config parse th ftn schema pks parts₂ temp et tp rn cn := rfl

/-- Claim C10: the connector declares `allow_temp_tables = True`, yet every
call of `create_empty_table` with `as_temp_table = True` raises the
`NotImplementedError` saying temporary tables are unsupported — the
advertised capability and the behaviour contradict each other. -/
theorem temp_capability_contradiction :
    allow_temp_tables = true ∧
    ∀ (config : Config) (parse : String → String) (th : JsonSchema → SqlType)
      (ftn : String) (schema : Schema) (pks parts : Option (List String))
      (et : String) (tp rn cn : Option String),
      create_empty_table config parse th ftn schema pks parts true et tp rn cn =
        Except.error (CreateError.notImplementedError ("Temporary tables are not supported.")) :=
  ⟨rfl, fun _ _ _ _ _ _ _ _ _ _ _ => rfl⟩

/-- Claim C4: with the temporary-table flag set, `create_empty_table` fails
immediately with the unsupported-capability error, whatever the other
arguments are, and the SQL-execution collaborator is never invoked. -/
theorem temp_table_rejected
    (config : Config) (parse : String → String) (th : JsonSchema → SqlType)
    (ftn : String) (schema : Schema) (pks parts : Option (List String))
    (et : String) (tp rn cn : Option String) :
    create_empty_table config parse th ftn schema pks parts true et tp rn cn =
      Except.error (CreateError.notImplementedError ("Temporary tables are not supported.")) ∧
    executed_ddl
      (create_empty_table config parse th ftn schema pks parts true et tp rn cn) = [] :=
  ⟨rfl, rfl⟩

/-- Claim C3: a successful `create_empty_table` produces one column per
schema property, in schema iteration order, each with the type given by the
type-mapping policy, and a column is marked primary-key exactly when its
name occurs in the supplied primary-key list. -/
theorem create_columns_order_types_pk
    (config : Config) (parse : String → String) (th : JsonSchema → SqlType)
    (ftn : String) (schema : Schema) (pks parts : Option (List String))
    (temp : Bool) (et : String) (tp rn cn : Option String)
    (ps : List (String × JsonSchema)) (t : CreateResult)
    (hps : schema.properties = some ps)
    (hok : create_empty_table config parse th ftn schema pks parts temp et tp rn cn =
      Except.ok t) :
    t.columns.map ColumnDef.name = ps.map Prod.fst ∧
    t.columns.map ColumnDef.sql_type = ps.map (fun p => to_sql_type th p.2) ∧
    ∀ c ∈ t.columns, (c.primary_key = true ↔ c.name ∈ pks.getD []) := by
  obtain ⟨-, ps2, ec, hps2, -, ht⟩ :=
    create_ok_inversion config parse th ftn schema pks parts temp et tp rn cn t hok
  rw [hps] at hps2
  obtain rfl := Option.some.inj hps2
  have hcols : t.columns = ps.map (fun p =>
      ColumnDef.mk p.1 (to_sql_type th p.2) (decide (p.1 ∈ pks.getD []))) := by
    rw [ht]
  rw [hcols]
  refine ⟨?_, ?_, ?_⟩
  · rw [List.map_map]
    rfl
  · rw [List.map_map]
    rfl
  · intro c hc
    obtain ⟨p, hp, rfl⟩ := List.mem_map.mp hc
    simp

/-- Claim C5: a successful `create_empty_table` always binds the effective
primary-key list (empty included) into the engine arguments, and binds the
coordination path and replica name exactly as given — `none` meaning the
keyword was omitted from the constructor call, never passed as a null; and
for a non-replicated engine class the resulting engine clause carries no
coordination or replica parameter at all. -/
theorem engine_args_binding
    (config : Config) (parse : String → String) (th : JsonSchema → SqlType)
    (ftn : String) (schema : Schema) (pks parts : Option (List String))
    (temp : Bool) (et : String) (tp rn cn : Option String) (t : CreateResult)
    (hok : create_empty_table config parse th ftn schema pks parts temp et tp rn cn =
      Except.ok t) :
    t.engine_args.primary_key = pks.getD [] ∧
    t.engine_args.table_path = tp ∧
    t.engine_args.replica_name = rn ∧
    (t.engine_class.isReplicated = false →
      (engine_clause t.engine_class t.engine_args).coordination_path = none ∧
      (engine_clause t.engine_class t.engine_args).replica = none) := by
  obtain ⟨-, ps, ec, -, -, ht⟩ :=
    create_ok_inversion config parse th ftn schema pks parts temp et tp rn cn t hok
  have hargs : t.engine_args = EngineArgs.mk (pks.getD []) tp rn := by rw [ht]
  refine ⟨by rw [hargs], by rw [hargs], by rw [hargs], ?_⟩
  intro hrep
  simp [engine_clause, hrep]

/-- Claim C6: a schema without a properties section makes
`create_empty_table` fail with the malformed-schema `RuntimeError` whose
message is built from the table name and the offending schema, and nothing
is executed; a schema with a properties section never triggers that error. -/
theorem schema_properties_validation :
    (∀ (config : Config) (parse : String → String) (th : JsonSchema → SqlType)
        (ftn : String) (schema : Schema) (pks parts : Option (List String))
        (et : String) (tp rn cn : Option String),
      schema.properties = none →
      create_empty_table config parse th ftn schema pks parts false et tp rn cn =
        Except.error (CreateError.runtimeError
          ("Schema for \x27" ++ ftn ++ "\x27 does not define properties: " ++
            Schema.render schema)) ∧
      executed_ddl
        (create_empty_table config parse th ftn schema pks parts false et tp rn cn) = []) ∧
    (∀ (config : Config) (parse : String → String) (th : JsonSchema → SqlType)
        (ftn : String) (schema : Schema) (pks parts : Option (List String))
        (temp : Bool) (et : String) (tp rn cn : Option String)
        (ps : List (String × JsonSchema)) (m : String),
      schema.properties = some ps →
      create_empty_table config parse th ftn schema pks parts temp et tp rn cn ≠
        Except.error (CreateError.runtimeError m)) := by
  constructor
  · intro config parse th ftn schema pks parts et tp rn cn hps
    have hcreate : create_empty_table config parse th ftn schema pks parts false et tp rn cn =
        Except.error (CreateError.runtimeError
          ("Schema for \x27" ++ ftn ++ "\x27 does not define properties: " ++
            Schema.render schema)) := by
      unfold create_empty_table
      rw [hps]
      rfl
    exact ⟨hcreate, by rw [hcreate]; rfl⟩
  · intro config parse th ftn schema pks parts temp et tp rn cn ps m hps heq
    unfold create_empty_table at heq
    cases temp with
    | true => exact CreateError.noConfusion (Except.error.inj heq)
    | false =>
      rw [hps] at heq
      cases heng : get_engine_class et with
      | none =>
        rw [heng] at heq
        exact CreateError.noConfusion (Except.error.inj heq)
      | some ec =>
        rw [heng] at heq
        exact Except.noConfusion heq

/-- Claim C7: the effective table name of a successful `create_empty_table`
is the configured operator-level override when one is set (a present,
non-empty `table_name` configuration value), and otherwise the name parsed
out of the `full_table_name` argument. -/
theorem table_name_override :
    (∀ (config : Config) (parse : String → String) (th : JsonSchema → SqlType)
        (ftn : String) (schema : Schema) (pks parts : Option (List String))
        (temp : Bool) (et : String) (tp rn cn : Option String)
        (s : String) (t : CreateResult),
      config.table_name = some s → s ≠ "" →
      create_empty_table config parse th ftn schema pks parts temp et tp rn cn =
        Except.ok t →
      t.table_name = s) ∧
    (∀ (config : Config) (parse : String → String) (th : JsonSchema → SqlType)
        (ftn : String) (schema : Schema) (pks parts : Option (List String))
        (temp : Bool) (et : String) (tp rn cn : Option String) (t : CreateResult),
      config.table_name = none →
      create_empty_table config parse th ftn schema pks parts temp et tp rn cn =
        Except.ok t →
      t.table_name = parse ftn) := by
  constructor
  · intro config parse th ftn schema pks parts temp et tp rn cn s t hcfg hne hok
    obtain ⟨-, ps, ec, -, -, ht⟩ :=
      create_ok_inversion config parse th ftn schema pks parts temp et tp rn cn t hok
    have hname : t.table_name =
        (match config.table_name with
          | some s2 => if s2 = "" then parse ftn else s2
          | none => parse ftn) := by
      rw [ht]
    rw [hname, hcfg]
    simp [hne]
  · intro config parse th ftn schema pks parts temp et tp rn cn t hcfg hok
    obtain ⟨-, ps, ec, -, -, ht⟩ :=
      create_ok_inversion config parse th ftn schema pks parts temp et tp rn cn t hok
    have hname : t.table_name =
        (match config.table_name with
          | some s2 => if s2 = "" then parse ftn else s2
          | none => parse ftn) := by
      rw [ht]
    rw [hname, hcfg]

/-- The two-property example schema of the spec: an integer `id` and a
string `name`, in that order. -/
def example_properties : List (String × JsonSchema) :=
  [(("id"), JsonSchema.mk ("integer")), (("name"), JsonSchema.mk ("string"))]

/-- The example schema wrapping `example_properties`. -/
def example_schema : Schema := Schema.mk (some example_properties)

/-- The columns produced for `example_schema` with an empty primary-key
list. -/
def example_columns : List ColumnDef :=
  [ColumnDef.mk ("id") SqlType.INTEGER false,
   ColumnDef.mk ("name") (SqlType.VARCHAR none) false]

/-- The table produced for `example_schema` with primary keys `[id]`. -/
def example_result_pk : CreateResult :=
  CreateResult.mk ("stream")
    [ColumnDef.mk ("id") SqlType.INTEGER true,
     ColumnDef.mk ("name") (SqlType.VARCHAR none) false]
    EngineClass.MergeTree (EngineArgs.mk [("id")] none none) (TableArgs.mk none)

/-- The table produced for `example_schema` with no primary keys but with a
coordination path and replica name supplied to the non-replicated
`MergeTree` engine. -/
def example_result_repl : CreateResult :=
  CreateResult.mk ("stream") example_columns EngineClass.MergeTree
    (EngineArgs.mk [] (some ("/ch/tables")) (some ("r1"))) (TableArgs.mk none)

/-- The table produced for `example_schema` under a configured table-name
override. -/
def example_result_pin : CreateResult :=
  CreateResult.mk ("pinned") example_columns EngineClass.MergeTree
    (EngineArgs.mk [] none none) (TableArgs.mk none)

/-- Claim C3 witness: for primary keys `[id]` and properties
`id: integer, name: string`, the produced columns are `id` then `name`,
with `id` and only `id` marked primary key. -/
theorem create_columns_order_types_pk_witness :
    example_schema.properties = some example_properties ∧
    create_empty_table (Config.mk none) (fun s => s) th_to_sql_type_model ("stream")
        example_schema (some [("id")]) none false ("MergeTree") none none none =
      Except.ok example_result_pk ∧
    (example_result_pk.columns.map ColumnDef.name = example_properties.map Prod.fst ∧
     example_result_pk.columns.map ColumnDef.sql_type =
       example_properties.map (fun p => to_sql_type th_to_sql_type_model p.2) ∧
     ∀ c ∈ example_result_pk.columns,
       (c.primary_key = true ↔ c.name ∈ (some [("id")] : Option (List String)).getD [])) :=
  ⟨rfl, rfl,
    create_columns_order_types_pk (Config.mk none) (fun s => s) th_to_sql_type_model ("stream")
      example_schema (some [("id")]) none false ("MergeTree") none none none
      example_properties example_result_pk rfl rfl⟩

/-- Claim C5 witness: a `MergeTree` (non-replicated) selection given a
coordination path and a replica name succeeds and its engine clause carries
neither parameter. -/
theorem engine_args_binding_witness :
    create_empty_table (Config.mk none) (fun s => s) th_to_sql_type_model ("stream")
        example_schema none none false ("MergeTree") (some ("/ch/tables")) (some ("r1")) none =
      Except.ok example_result_repl ∧
    example_result_repl.engine_class.isReplicated = false ∧
    (engine_clause example_result_repl.engine_class
      example_result_repl.engine_args).coordination_path = none ∧
    (engine_clause example_result_repl.engine_class
      example_result_repl.engine_args).replica = none :=
  ⟨rfl, rfl,
   ((engine_args_binding (Config.mk none) (fun s => s) th_to_sql_type_model ("stream")
       example_schema none none false ("MergeTree") (some ("/ch/tables")) (some ("r1")) none
       example_result_repl rfl).2.2.2 rfl).1,
   ((engine_args_binding (Config.mk none) (fun s => s) th_to_sql_type_model ("stream")
       example_schema none none false ("MergeTree") (some ("/ch/tables")) (some ("r1")) none
       example_result_repl rfl).2.2.2 rfl).2⟩

/-- Claim C6 witness: the empty schema dict fails with the malformed-schema
error carrying the table name and the rendered schema and executes nothing,
while the example schema with properties never hits that error. -/
theorem schema_properties_validation_witness :
    ((Schema.mk none).properties = none ∧
      create_empty_table (Config.mk none) (fun s => s) th_to_sql_type_model ("s")
          (Schema.mk none) none none false ("MergeTree") none none none =
        Except.error (CreateError.runtimeError
          ("Schema for \x27" ++ "s" ++ "\x27 does not define properties: " ++
            Schema.render (Schema.mk none))) ∧
      executed_ddl
        (create_empty_table (Config.mk none) (fun s => s) th_to_sql_type_model ("s")
          (Schema.mk none) none none false ("MergeTree") none none none) = []) ∧
    (example_schema.properties = some example_properties ∧
      create_empty_table (Config.mk none) (fun s => s) th_to_sql_type_model ("s")
          example_schema none none false ("MergeTree") none none none ≠
        Except.error (CreateError.runtimeError ("boom"))) :=
  ⟨⟨rfl,
    (schema_properties_validation.1 (Config.mk none) (fun s => s) th_to_sql_type_model ("s")
      (Schema.mk none) none none ("MergeTree") none none none rfl).1,
    (schema_properties_validation.1 (Config.mk none) (fun s => s) th_to_sql_type_model ("s")
      (Schema.mk none) none none ("MergeTree") none none none rfl).2⟩,
   ⟨rfl,
    schema_properties_validation.2 (Config.mk none) (fun s => s) th_to_sql_type_model ("s")
      example_schema none none false ("MergeTree") none none none example_properties
      ("boom") rfl⟩⟩

/-- Claim C7 witness: with the override `pinned` configured, the effective
table name is `pinned`; with no override configured it is the parsed name
`stream`. -/
theorem table_name_override_witness :
    ((Config.mk (some ("pinned"))).table_name = some ("pinned") ∧
      ("pinned" : String) ≠ "" ∧
      create_empty_table (Config.mk (some ("pinned"))) (fun s => s) th_to_sql_type_model
          ("stream") example_schema none none false ("MergeTree") none none none =
        Except.ok example_result_pin ∧
      example_result_pin.table_name = "pinned") ∧
    ((Config.mk none).table_name = none ∧
      create_empty_table (Config.mk none) (fun s => s) th_to_sql_type_model
          ("stream") example_schema none none false ("MergeTree") none none none =
        Except.ok (CreateResult.mk ("stream") example_columns EngineClass.MergeTree
          (EngineArgs.mk [] none none) (TableArgs.mk none)) ∧
      (CreateResult.mk ("stream") example_columns EngineClass.MergeTree
        (EngineArgs.mk [] none none) (TableArgs.mk none)).table_name =
        (fun s : String => s) ("stream")) :=
  ⟨⟨rfl, by decide, rfl,
    table_name_override.1 (Config.mk (some ("pinned"))) (fun s => s) th_to_sql_type_model
      ("stream") example_schema none none false ("MergeTree") none none none
      ("pinned") example_result_pin rfl (by decide) rfl⟩,
   ⟨rfl, rfl,
    table_name_override.2 (Config.mk none) (fun s => s) th_to_sql_type_model
      ("stream") example_schema none none false ("MergeTree") none none none
      (CreateResult.mk ("stream") example_columns EngineClass.MergeTree
        (EngineArgs.mk [] none none) (TableArgs.mk none)) rfl rfl⟩⟩

end TargetClickhouse
